import Mathlib

/-!
Verification of the secure file-loading subsystem of mindmap-cli.

Shallow embedding of `src/cache.rs` (`MindmapCache`: `resolve_path`, `load`,
`stats`) and `src/context.rs` (`NavigationContext`: `descend`, the depth
guard's `drop`).

Paths are modelled at the level of `std::path` components: a parsed path is a
possible Windows prefix component (drive letter or UNC), a root-directory
marker, and a list of segments (normal names or `..`).  The filesystem is an
abstract oracle (`FS`) supplying `fs::canonicalize`, `fs::metadata` (the file
size), and `Mindmap::load`'s read-and-parse step; every call the code makes to
the oracle is recorded in an event trace so that "the file is never read or
parsed" is a statement about the trace.
-/

namespace MindmapCli

/-- A Windows path-prefix component (`std::path::Component::Prefix`): a drive
letter such as `C:`, or a UNC `\\server\share` prefix. -/
inductive DrivePart where
  | disk (letter : Char)
  | unc (server share : String)
deriving DecidableEq, Repr

/-- One non-root path segment, as produced by `Path::components()`:
either a `..` (`Component::ParentDir`) or a normal name. -/
inductive Seg where
  | up
  | name (s : String)
deriving DecidableEq, Repr

/-- A parsed path (`std::path::Path` at component level): an optional Windows
prefix component, a root-directory marker, and the remaining segments. -/
structure MPath where
  drive : Option DrivePart
  root : Bool
  segs : List Seg
deriving DecidableEq, Repr

/-- A component as yielded by `Path::components()`. -/
inductive Component where
  | driveComp (d : DrivePart)
  | rootDir
  | parentDir
  | normal (s : String)
deriving DecidableEq, Repr

/-- `Path::components()`: the prefix component if any, then `RootDir` if the
path has a root, then the segments. -/
def MPath.components (p : MPath) : List Component :=
  (match p.drive with
   | some d => [Component.driveComp d]
   | none => []) ++
  (if p.root then [Component.rootDir] else []) ++
  p.segs.map (fun s => match s with
    | Seg.up => Component.parentDir
    | Seg.name n => Component.normal n)

/-- `Path::is_absolute()` on POSIX: the path has a root.  (On Windows the
drive/UNC forms are additionally caught by the explicit component scan in
`resolve_path`, which the embedding reproduces verbatim.) -/
def MPath.is_absolute (p : MPath) : Bool :=
  p.root

/-- The `Component::Prefix(_) | Component::RootDir` test of the component
loop in `resolve_path`. -/
def Component.isDriveOrRoot : Component → Bool
  | Component.driveComp _ => true
  | Component.rootDir => true
  | _ => false

/-- `Path::parent()`: drop the last segment; `None` when there is no segment
to drop (empty, root-only or prefix-only path). -/
def MPath.parent (p : MPath) : Option MPath :=
  match p.segs with
  | [] => none
  | _ :: _ => some { p with segs := p.segs.dropLast }

/-- `Path::join`: an absolute (rooted or prefixed) right-hand side replaces
the left-hand side; otherwise the segments are appended. -/
def MPath.join (p q : MPath) : MPath :=
  if q.root || q.drive.isSome then q
  else { p with segs := p.segs ++ q.segs }

/-- `Path::starts_with`: same prefix component, same root marker, and the
candidate's segments are a componentwise prefix of ours. -/
def MPath.startsWith (p q : MPath) : Bool :=
  p.drive = q.drive && p.root = q.root && q.segs.isPrefixOf p.segs

/-- The parsed representation of one mindmap file (`Mindmap` in `lib.rs`).
This subsystem treats it as opaque; only the node list's length is observable
through `stats`, so nodes are carried as their ids. -/
structure Mindmap where
  nodes : List Nat
deriving DecidableEq, Repr

/-- One call the cache makes to the filesystem: `fs::canonicalize`,
`fs::metadata` (stat), or `Mindmap::load`'s read-and-parse. -/
inductive FsEvent where
  | canonCall (p : MPath)
  | statCall (p : MPath)
  | parseCall (p : MPath)
deriving DecidableEq, Repr

/-- The filesystem oracle: what `fs::canonicalize` returns for every path
(`none` = failure), what size `fs::metadata` reports (`none` = stat failure),
and what `Mindmap::load`'s read-and-parse step yields (`none` = read or parse
failure). -/
structure FS where
  canonicalize : MPath → Option MPath
  fileSize : MPath → Option Nat
  parseFile : MPath → Option Mindmap

/-- The error cases of `resolve_path` and `load` (each `bail!`/`context` site
in `cache.rs`, carrying the data the message reports). -/
inductive LoadError where
  | absolutePathRejected (relative : MPath)
  | pathResolutionFailed (relative baseDir : MPath)
  | pathEscape (relative : MPath)
  | circularReference (baseFile relative : MPath)
  | statFailed (path : MPath)
  | fileTooLarge (size limit : Nat)
  | parseFailed (path : MPath)
deriving DecidableEq, Repr

/-- The `MindmapCache` struct: the canonical-path-keyed cache (association
list, keys unique by construction), the canonicalized workspace root, the max
file size and the max recursion depth. -/
structure MindmapCache where
  cache : List (MPath × Mindmap)
  workspace_root : MPath
  max_file_size : Nat
  max_depth : Nat
deriving DecidableEq, Repr

/-- `HashMap::get` on the cache mapping. -/
def findEntry (entries : List (MPath × Mindmap)) (p : MPath) : Option Mindmap :=
  match entries with
  | [] => none
  | (q, mm) :: rest => if q = p then some mm else findEntry rest p

/-- The directory anchoring a relative lookup:
`base_file.parent().unwrap_or(&self.workspace_root)`. -/
def MindmapCache.baseDir (self : MindmapCache) (base_file : MPath) : MPath :=
  (base_file.parent).getD self.workspace_root

/-- The joined path handed to the final canonicalization:
`fs::canonicalize(base_dir).unwrap_or(base_dir).join(rel_path)`. -/
def MindmapCache.fullPath (self : MindmapCache) (fs : FS) (base_file relative : MPath) : MPath :=
  ((fs.canonicalize (self.baseDir base_file)).getD (self.baseDir base_file)).join relative

/-- `MindmapCache::resolve_path`, with the trace of filesystem calls it
performs.  Mirrors `cache.rs` lines 120-165: reject absolute paths (fast
`is_absolute` test, then the component scan for `Prefix`/`RootDir`), anchor at
the base file's parent (workspace root when there is none), canonicalize that
directory with fallback to the literal directory, join, canonicalize the
result (failure is `PathResolutionFailed`), then require the canonical result
to start with the workspace root (else `PathEscape`). -/
def MindmapCache.resolve_path (self : MindmapCache) (fs : FS) (base_file relative : MPath) :
    Except LoadError MPath × List FsEvent :=
  if relative.is_absolute then
    (Except.error (LoadError.absolutePathRejected relative), [])
  else if relative.components.any Component.isDriveOrRoot then
    (Except.error (LoadError.absolutePathRejected relative), [])
  else
    match fs.canonicalize (self.fullPath fs base_file relative) with
    | none =>
      (Except.error (LoadError.pathResolutionFailed relative (self.baseDir base_file)),
       [FsEvent.canonCall (self.baseDir base_file),
        FsEvent.canonCall (self.fullPath fs base_file relative)])
    | some canonical =>
      if canonical.startsWith self.workspace_root then
        (Except.ok canonical,
         [FsEvent.canonCall (self.baseDir base_file),
          FsEvent.canonCall (self.fullPath fs base_file relative)])
      else
        (Except.error (LoadError.pathEscape relative),
         [FsEvent.canonCall (self.baseDir base_file),
          FsEvent.canonCall (self.fullPath fs base_file relative)])

/-- The outcome of one `load` call: the cache state afterwards (`&mut self`
in the source — unchanged on every error path), the returned record or error,
and the trace of filesystem calls made. -/
structure LoadResult where
  cacheAfter : MindmapCache
  result : Except LoadError Mindmap
  trace : List FsEvent

/-- `MindmapCache::load`, `cache.rs` lines 64-106: resolve the path; fail
with `CircularReference` when the canonical path is in the visited set; hit
the cache with no filesystem access; otherwise stat, compare against
`max_file_size` (`FileTooLarge` without reading), read-and-parse
(`Mindmap::load`), insert and return. -/
def MindmapCache.load (self : MindmapCache) (fs : FS) (base_file relative : MPath)
    (visited : List MPath) : LoadResult :=
  match self.resolve_path fs base_file relative with
  | (Except.error e, tr) => ⟨self, Except.error e, tr⟩
  | (Except.ok canonical, tr) =>
    if canonical ∈ visited then
      ⟨self, Except.error (LoadError.circularReference base_file relative), tr⟩
    else
      match findEntry self.cache canonical with
      | some mm => ⟨self, Except.ok mm, tr⟩
      | none =>
        match fs.fileSize canonical with
        | none => ⟨self, Except.error (LoadError.statFailed canonical),
                   tr ++ [FsEvent.statCall canonical]⟩
        | some size =>
          if size > self.max_file_size then
            ⟨self, Except.error (LoadError.fileTooLarge size self.max_file_size),
             tr ++ [FsEvent.statCall canonical]⟩
          else
            match fs.parseFile canonical with
            | none => ⟨self, Except.error (LoadError.parseFailed canonical),
                       tr ++ [FsEvent.statCall canonical, FsEvent.parseCall canonical]⟩
            | some mm =>
              ⟨{ self with cache := self.cache ++ [(canonical, mm)] }, Except.ok mm,
               tr ++ [FsEvent.statCall canonical, FsEvent.parseCall canonical]⟩

/-- `CacheStats`. -/
structure CacheStats where
  num_cached : Nat
  total_nodes : Nat
deriving DecidableEq, Repr

/-- `MindmapCache::stats`. -/
def MindmapCache.stats (self : MindmapCache) : CacheStats :=
  ⟨self.cache.length, (self.cache.map (fun e => e.2.nodes.length)).sum⟩

/-- Every cache key lies within the workspace root. -/
def MindmapCache.keysWithinRoot (self : MindmapCache) : Bool :=
  self.cache.all (fun e => e.1.startsWith self.workspace_root)

/-- The `NavigationContext` struct of `context.rs`. -/
structure NavigationContext where
  depth : Nat
  max_depth : Nat
  visited : List MPath
deriving DecidableEq, Repr

/-- `NavigationContext::new()`. -/
def NavigationContext.new : NavigationContext :=
  ⟨0, 50, []⟩

/-- `NavigationContext::with_max_depth(n)`. -/
def NavigationContext.with_max_depth (m : Nat) : NavigationContext :=
  ⟨0, m, []⟩

/-- The error of `descend`, carrying the reported maximum depth. -/
inductive NavError where
  | recursionDepthExceeded (maxDepth : Nat)
deriving DecidableEq, Repr

/-- `NavigationContext::descend`, `context.rs` lines 60-67: increment the
depth; if it now exceeds `max_depth`, undo the increment and fail (the net
state on failure is the original one); otherwise succeed with the guard. -/
def NavigationContext.descend (ctx : NavigationContext) :
    NavigationContext × Except NavError Unit :=
  if ctx.depth + 1 > ctx.max_depth then
    (ctx, Except.error (NavError.recursionDepthExceeded ctx.max_depth))
  else
    ({ ctx with depth := ctx.depth + 1 }, Except.ok ())

/-- `Drop for DepthGuard`, `context.rs` lines 107-111:
`depth = depth.saturating_sub(1)` (Nat subtraction saturates at 0). -/
def DepthGuard.drop (ctx : NavigationContext) : NavigationContext :=
  { ctx with depth := ctx.depth - 1 }

/-- One step a traversal driver can take against a `NavigationContext`:
a `descend()` call (keeping the rolled-back state when it fails) or a guard
release. -/
inductive NavOp where
  | descendOp
  | releaseOp
deriving DecidableEq, Repr

/-- Apply one driver step. -/
def navStep (ctx : NavigationContext) : NavOp → NavigationContext
  | NavOp.descendOp => (ctx.descend).1
  | NavOp.releaseOp => DepthGuard.drop ctx

/-- Run a sequence of driver steps. -/
def navRun (ctx : NavigationContext) (ops : List NavOp) : NavigationContext :=
  ops.foldl navStep ctx

/-- Iterate `descend`; `none` as soon as one call fails. -/
def descendN (ctx : NavigationContext) : Nat → Option NavigationContext
  | 0 => some ctx
  | n + 1 =>
    match ctx.descend with
    | (c, Except.ok _) => descendN c n
    | (_, Except.error _) => none

/-- Concrete workspace root `/ws` for evaluating the development. -/
def wsRoot : MPath := ⟨none, true, [Seg.name "ws"]⟩

/-- Concrete file `/ws/A.md`. -/
def fileA : MPath := ⟨none, true, [Seg.name "ws", Seg.name "A.md"]⟩

/-- Concrete file `/ws/B.md`. -/
def fileB : MPath := ⟨none, true, [Seg.name "ws", Seg.name "B.md"]⟩

/-- Concrete oversized file `/ws/big.md`. -/
def fileBig : MPath := ⟨none, true, [Seg.name "ws", Seg.name "big.md"]⟩

/-- Relative reference `B.md`. -/
def refB : MPath := ⟨none, false, [Seg.name "B.md"]⟩

/-- Relative reference `big.md`. -/
def refBig : MPath := ⟨none, false, [Seg.name "big.md"]⟩

/-- Parsed record for `/ws/A.md`. -/
def mmA : Mindmap := ⟨[1]⟩

/-- Parsed record for `/ws/B.md`. -/
def mmB : Mindmap := ⟨[2]⟩

/-- A concrete filesystem: `/ws`, `/ws/A.md`, `/ws/B.md` and `/ws/big.md`
exist and canonicalize to themselves; `big.md` is 999999 bytes, the others
100 bytes. -/
def theFS : FS where
  canonicalize p :=
    if p = wsRoot then some wsRoot
    else if p = fileA then some fileA
    else if p = fileB then some fileB
    else if p = fileBig then some fileBig
    else none
  fileSize p :=
    if p = fileA then some 100
    else if p = fileB then some 100
    else if p = fileBig then some 999999
    else none
  parseFile p :=
    if p = fileA then some mmA
    else if p = fileB then some mmB
    else none

/-- A filesystem on which no directory canonicalizes, except the target file
`/ws/B.md` itself (a fresh setup whose directories are not yet resolvable). -/
def brokenDirFS : FS where
  canonicalize p := if p = fileB then some fileB else none
  fileSize p := if p = fileB then some 100 else none
  parseFile p := if p = fileB then some mmB else none

/-- A fresh concrete cache rooted at `/ws` with a 1024-byte size limit. -/
def theCache : MindmapCache := ⟨[], wsRoot, 1024, 50⟩

/-- The concrete cache with `/ws/B.md` already cached. -/
def cacheWithB : MindmapCache := ⟨[(fileB, mmB)], wsRoot, 1024, 50⟩

/-- Concrete file `/etc/passwd`, outside the workspace. -/
def etcPasswd : MPath := ⟨none, true, [Seg.name "etc", Seg.name "passwd"]⟩

/-- Relative traversal reference `../../etc/passwd`. -/
def refEscape : MPath := ⟨none, false, [Seg.up, Seg.up, Seg.name "etc", Seg.name "passwd"]⟩

/-- A filesystem on which the traversal reference canonicalizes to
`/etc/passwd`, outside the workspace root. -/
def escapeFS : FS where
  canonicalize p :=
    if p = wsRoot then some wsRoot
    else if p = wsRoot.join refEscape then some etcPasswd
    else none
  fileSize _ := none
  parseFile _ := none

/-- A base file with no parent directory (empty relative file name). -/
def baseEmpty : MPath := ⟨none, false, []⟩

/-- A run of `n` successful `descend` calls adds exactly `n` to the depth and
leaves `max_depth` unchanged. -/
theorem descendN_some (n : Nat) (ctx ctx' : NavigationContext)
    (h : descendN ctx n = some ctx') :
    ctx'.depth = ctx.depth + n ∧ ctx'.max_depth = ctx.max_depth := by
  induction n generalizing ctx with
  | zero =>
    simp only [descendN] at h
    cases h
    exact ⟨rfl, rfl⟩
  | succ n ih =>
    simp only [descendN, NavigationContext.descend] at h
    by_cases hd : ctx.depth + 1 > ctx.max_depth
    · simp [hd] at h
    · simp only [hd, if_false] at h
      obtain ⟨h1, h2⟩ := ih _ h
      have h1' : ctx'.depth = ctx.depth + 1 + n := h1
      have h2' : ctx'.max_depth = ctx.max_depth := h2
      constructor
      · omega
      · exact h2'

/-- C6: after `n` successful `descend()` calls (no intervening guard
releases) on a context whose maximum depth is `n`, the next `descend()` fails
with `RecursionDepthExceeded` reporting the maximum depth, and the failed
call leaves the context — in particular its depth counter — exactly as it
was. -/
theorem descend_fails_after_n_descends (ctx ctx' : NavigationContext) (n : Nat)
    (hmax : ctx.max_depth = n) (hrun : descendN ctx n = some ctx') :
    ctx'.descend = (ctx', Except.error (NavError.recursionDepthExceeded n)) := by
  obtain ⟨hd, hm⟩ := descendN_some n ctx ctx' hrun
  have hgt : ctx'.depth + 1 > ctx'.max_depth := by omega
  simp [NavigationContext.descend, hgt, hm, hmax]
  omega

/-- Witness for C6: with maximum depth 2, two descends succeed and the third
fails, reporting 2 and leaving the context untouched. -/
theorem descend_fails_after_n_descends_witness :
    (NavigationContext.mk 2 2 []).descend =
      (NavigationContext.mk 2 2 [], Except.error (NavError.recursionDepthExceeded 2)) :=
  descend_fails_after_n_descends (NavigationContext.with_max_depth 2)
    (NavigationContext.mk 2 2 []) 2 rfl rfl

/-- A driver step never raises the depth above `max_depth` when it was within
bounds, and never changes `max_depth`. -/
theorem navRun_bounded (ops : List NavOp) (ctx : NavigationContext)
    (h : ctx.depth ≤ ctx.max_depth) :
    (navRun ctx ops).depth ≤ (navRun ctx ops).max_depth ∧
      (navRun ctx ops).max_depth = ctx.max_depth := by
  induction ops generalizing ctx with
  | nil => exact ⟨h, rfl⟩
  | cons op rest ih =>
    have hstep : (navStep ctx op).depth ≤ (navStep ctx op).max_depth ∧
        (navStep ctx op).max_depth = ctx.max_depth := by
      cases op with
      | descendOp =>
        by_cases hd : ctx.depth + 1 > ctx.max_depth
        · simp [navStep, NavigationContext.descend, hd]
          omega
        · simp [navStep, NavigationContext.descend, hd]
          omega
      | releaseOp =>
        refine ⟨?_, rfl⟩
        simp only [navStep, DepthGuard.drop]
        omega
    obtain ⟨h1, h2⟩ := ih (navStep ctx op) hstep.1
    exact ⟨h1, h2.trans hstep.2⟩

/-- C7: over every sequence of `descend()` calls and guard releases from a
freshly constructed context, the depth satisfies `0 ≤ depth ≤ maxDepth`; a
guard release decrements the depth by exactly one when it is positive and
never takes it below zero. -/
theorem nav_depth_invariant (m : Nat) (ops : List NavOp) :
    (0 ≤ (navRun (NavigationContext.with_max_depth m) ops).depth ∧
      (navRun (NavigationContext.with_max_depth m) ops).depth ≤ m)
    ∧ (∀ ctx : NavigationContext,
        (0 < ctx.depth → (DepthGuard.drop ctx).depth + 1 = ctx.depth)
        ∧ (ctx.depth = 0 → (DepthGuard.drop ctx).depth = 0)) := by
  constructor
  · have h := navRun_bounded ops (NavigationContext.with_max_depth m)
      (by simp [NavigationContext.with_max_depth])
    refine ⟨Nat.zero_le _, ?_⟩
    have : (navRun (NavigationContext.with_max_depth m) ops).max_depth = m := h.2
    omega
  · intro ctx
    constructor
    · intro h
      simp only [DepthGuard.drop]
      omega
    · intro h
      simp only [DepthGuard.drop, h]

/-- Witness for C7: one descend then two releases from max depth 1 keeps the
depth at most 1, and a release at depth 3 and at depth 0 behave as stated. -/
theorem nav_depth_invariant_witness :
    ((navRun (NavigationContext.with_max_depth 1)
        [NavOp.descendOp, NavOp.releaseOp, NavOp.releaseOp]).depth ≤ 1)
    ∧ (DepthGuard.drop (NavigationContext.mk 3 5 [])).depth + 1 = 3
    ∧ (DepthGuard.drop (NavigationContext.mk 0 5 [])).depth = 0 :=
  ⟨(nav_depth_invariant 1 [NavOp.descendOp, NavOp.releaseOp, NavOp.releaseOp]).1.2,
   ((nav_depth_invariant 1 []).2 (NavigationContext.mk 3 5 [])).1 (by decide),
   ((nav_depth_invariant 1 []).2 (NavigationContext.mk 0 5 [])).2 rfl⟩

/-- The trace of `resolve_path` is either empty or exactly the two
canonicalization calls (base directory, then joined path). -/
theorem resolve_trace_cases (self : MindmapCache) (fs : FS) (base_file relative : MPath) :
    (self.resolve_path fs base_file relative).2 = [] ∨
    (self.resolve_path fs base_file relative).2 =
      [FsEvent.canonCall (self.baseDir base_file),
       FsEvent.canonCall (self.fullPath fs base_file relative)] := by
  unfold MindmapCache.resolve_path
  by_cases h1 : relative.is_absolute
  · simp [h1]
  · by_cases h2 : relative.components.any Component.isDriveOrRoot
    · simp [h1, h2]
    · cases hc : fs.canonicalize (self.fullPath fs base_file relative) with
      | none => simp [h1, h2, hc]
      | some cc =>
        by_cases hs : cc.startsWith self.workspace_root
        · simp [h1, h2, hc, hs]
        · simp [h1, h2, hc, hs]

/-- `resolve_path` never stats a file. -/
theorem resolve_trace_no_stat (self : MindmapCache) (fs : FS) (base_file relative p : MPath) :
    FsEvent.statCall p ∉ (self.resolve_path fs base_file relative).2 := by
  rcases resolve_trace_cases self fs base_file relative with h | h <;> simp [h]

/-- `resolve_path` never reads or parses a file. -/
theorem resolve_trace_no_parse (self : MindmapCache) (fs : FS) (base_file relative p : MPath) :
    FsEvent.parseCall p ∉ (self.resolve_path fs base_file relative).2 := by
  rcases resolve_trace_cases self fs base_file relative with h | h <;> simp [h]

/-- A path returned successfully by `resolve_path` starts with the workspace
root. -/
theorem resolve_ok_within_root (self : MindmapCache) (fs : FS)
    (base_file relative c : MPath) (tr : List FsEvent)
    (h : self.resolve_path fs base_file relative = (Except.ok c, tr)) :
    c.startsWith self.workspace_root = true := by
  unfold MindmapCache.resolve_path at h
  by_cases h1 : relative.is_absolute
  · simp [h1] at h
  · by_cases h2 : relative.components.any Component.isDriveOrRoot
    · simp [h1, h2] at h
    · cases hc : fs.canonicalize (self.fullPath fs base_file relative) with
      | none => simp [h1, h2, hc] at h
      | some cc =>
        by_cases hs : cc.startsWith self.workspace_root
        · simp [h1, h2, hc, hs] at h
          rw [← h.1]
          exact hs
        · simp [h1, h2, hc, hs] at h

/-- C2: a reference that is absolute in any recognized form — POSIX rooted,
drive-letter prefixed, or UNC prefixed — is rejected by `resolve_path` with
`AbsolutePathRejected`, for every base file, with an empty filesystem trace
(no filesystem access happens before the rejection). -/
theorem resolve_rejects_absolute (self : MindmapCache) (fs : FS) (base_file relative : MPath)
    (h : relative.root = true ∨ (relative.drive).isSome = true) :
    self.resolve_path fs base_file relative =
      (Except.error (LoadError.absolutePathRejected relative), []) := by
  by_cases hr : relative.root
  · simp [MindmapCache.resolve_path, MPath.is_absolute, hr]
  · rcases h with h | h
    · exact absurd h hr
    · obtain ⟨d, hd⟩ := Option.isSome_iff_exists.mp h
      simp [MindmapCache.resolve_path, MPath.is_absolute, hr, MPath.components, hd,
        Component.isDriveOrRoot]

/-- Witness for C2: `/etc/passwd` (POSIX rooted) and `C:\etc` (drive letter)
are both rejected at a concrete cache and base file, with no filesystem
access. -/
theorem resolve_rejects_absolute_witness :
    theCache.resolve_path theFS fileA ⟨none, true, [Seg.name "etc", Seg.name "passwd"]⟩ =
      (Except.error (LoadError.absolutePathRejected
        ⟨none, true, [Seg.name "etc", Seg.name "passwd"]⟩), []) ∧
    theCache.resolve_path theFS fileA ⟨some (DrivePart.disk 'C'), false, [Seg.name "etc"]⟩ =
      (Except.error (LoadError.absolutePathRejected
        ⟨some (DrivePart.disk 'C'), false, [Seg.name "etc"]⟩), []) :=
  ⟨resolve_rejects_absolute theCache theFS fileA _ (Or.inl rfl),
   resolve_rejects_absolute theCache theFS fileA _ (Or.inr rfl)⟩

/-- C4: when the reference resolves to a canonical path that is in the
visited set, `load` fails with `CircularReference` naming the base file and
the reference, leaves the cache untouched, and performs no further
filesystem access beyond resolution — for every cache state, so in
particular even when the canonical path is already a cache key (the cycle
check precedes the cache lookup). -/
theorem load_circular_before_cache (self : MindmapCache) (fs : FS)
    (base_file relative c : MPath) (visited : List MPath) (tr : List FsEvent)
    (hres : self.resolve_path fs base_file relative = (Except.ok c, tr))
    (hv : c ∈ visited) :
    self.load fs base_file relative visited =
      ⟨self, Except.error (LoadError.circularReference base_file relative), tr⟩ := by
  simp [MindmapCache.load, hres, hv]

/-- Witness for C4: with `/ws/B.md` both already cached and in the visited
set, loading `B.md` from `/ws/A.md` fails with `CircularReference`. -/
theorem load_circular_before_cache_witness :
    cacheWithB.load theFS fileA refB [fileB] =
      ⟨cacheWithB, Except.error (LoadError.circularReference fileA refB),
       [FsEvent.canonCall wsRoot, FsEvent.canonCall fileB]⟩ :=
  load_circular_before_cache cacheWithB theFS fileA refB fileB [fileB]
    [FsEvent.canonCall wsRoot, FsEvent.canonCall fileB] (by rfl) (by decide)

/-- C5: an uncached, unvisited file whose size exceeds the configured
maximum makes `load` fail with `FileTooLarge` reporting both the actual size
and the limit, and the file is never read or passed to the parser (no parse
event appears in the trace). -/
theorem load_too_large_never_parses (self : MindmapCache) (fs : FS)
    (base_file relative c : MPath) (visited : List MPath) (tr : List FsEvent) (n : Nat)
    (hres : self.resolve_path fs base_file relative = (Except.ok c, tr))
    (hv : c ∉ visited)
    (hmiss : findEntry self.cache c = none)
    (hsize : fs.fileSize c = some n)
    (hbig : self.max_file_size < n) :
    self.load fs base_file relative visited =
      ⟨self, Except.error (LoadError.fileTooLarge n self.max_file_size),
       tr ++ [FsEvent.statCall c]⟩
    ∧ ∀ p, FsEvent.parseCall p ∉ (self.load fs base_file relative visited).trace := by
  have hload : self.load fs base_file relative visited =
      ⟨self, Except.error (LoadError.fileTooLarge n self.max_file_size),
       tr ++ [FsEvent.statCall c]⟩ := by
    simp [MindmapCache.load, hres, hv, hmiss, hsize, hbig]
  refine ⟨hload, ?_⟩
  intro p
  rw [hload]
  have htr : FsEvent.parseCall p ∉ tr := by
    have h := resolve_trace_no_parse self fs base_file relative p
    rw [hres] at h
    exact h
  simp [htr]

/-- Witness for C5: with the limit at 1024 bytes, loading the 999999-byte
`/ws/big.md` fails with `FileTooLarge 999999 1024` and no parse call occurs. -/
theorem load_too_large_never_parses_witness :
    theCache.load theFS fileA refBig [] =
      ⟨theCache, Except.error (LoadError.fileTooLarge 999999 1024),
       [FsEvent.canonCall wsRoot, FsEvent.canonCall fileBig, FsEvent.statCall fileBig]⟩
    ∧ ∀ p, FsEvent.parseCall p ∉ (theCache.load theFS fileA refBig []).trace :=
  load_too_large_never_parses theCache theFS fileA refBig fileBig []
    [FsEvent.canonCall wsRoot, FsEvent.canonCall fileBig] 999999
    (by rfl) (by decide) (by decide) (by rfl) (by decide)

/-- C10: whenever `load` returns an error of any kind, the cache is left
exactly as it was — no entry inserted or removed — and `stats()` reports the
same counts. -/
theorem load_error_leaves_cache (self : MindmapCache) (fs : FS)
    (base_file relative : MPath) (visited : List MPath) (e : LoadError)
    (h : (self.load fs base_file relative visited).result = Except.error e) :
    (self.load fs base_file relative visited).cacheAfter = self
    ∧ (self.load fs base_file relative visited).cacheAfter.stats = self.stats := by
  cases hres : self.resolve_path fs base_file relative with
  | mk r tr =>
    cases r with
    | error e' => simp [MindmapCache.load, hres]
    | ok c =>
      by_cases hv : c ∈ visited
      · simp [MindmapCache.load, hres, hv]
      · cases hf : findEntry self.cache c with
        | some mm =>
          exfalso
          simp [MindmapCache.load, hres, hv, hf] at h
        | none =>
          cases hsz : fs.fileSize c with
          | none => simp [MindmapCache.load, hres, hv, hf, hsz]
          | some n =>
            by_cases hb : n > self.max_file_size
            · simp [MindmapCache.load, hres, hv, hf, hsz, hb]
            · cases hp : fs.parseFile c with
              | none => simp [MindmapCache.load, hres, hv, hf, hsz, hb, hp]
              | some mm =>
                exfalso
                simp [MindmapCache.load, hres, hv, hf, hsz, hb, hp] at h

/-- Witness for C10: the failing oversized load leaves the concrete cache,
and its statistics, unchanged. -/
theorem load_error_leaves_cache_witness :
    (theCache.load theFS fileA refBig []).cacheAfter = theCache
    ∧ (theCache.load theFS fileA refBig []).cacheAfter.stats = theCache.stats :=
  load_error_leaves_cache theCache theFS fileA refBig []
    (LoadError.fileTooLarge 999999 1024) (by rfl)

/-- The cache after `load` is either unchanged or extended by exactly one
entry keyed by the successfully resolved canonical path. -/
theorem load_cacheAfter_cases (self : MindmapCache) (fs : FS)
    (base_file relative : MPath) (visited : List MPath) :
    (self.load fs base_file relative visited).cacheAfter = self ∨
    ∃ c mm tr, self.resolve_path fs base_file relative = (Except.ok c, tr) ∧
      (self.load fs base_file relative visited).cacheAfter =
        { self with cache := self.cache ++ [(c, mm)] } := by
  cases hres : self.resolve_path fs base_file relative with
  | mk r tr =>
    cases r with
    | error e => left; simp [MindmapCache.load, hres]
    | ok c =>
      by_cases hv : c ∈ visited
      · left; simp [MindmapCache.load, hres, hv]
      · cases hf : findEntry self.cache c with
        | some mm => left; simp [MindmapCache.load, hres, hv, hf]
        | none =>
          cases hsz : fs.fileSize c with
          | none => left; simp [MindmapCache.load, hres, hv, hf, hsz]
          | some n =>
            by_cases hb : n > self.max_file_size
            · left; simp [MindmapCache.load, hres, hv, hf, hsz, hb]
            · cases hp : fs.parseFile c with
              | none => left; simp [MindmapCache.load, hres, hv, hf, hsz, hb, hp]
              | some mm =>
                right
                exact ⟨c, mm, tr, rfl,
                  by simp [MindmapCache.load, hres, hv, hf, hsz, hb, hp]⟩

/-- C1: a successfully resolved canonical path starts with the workspace
root; when the canonicalized result does not start with the workspace root,
`resolve_path` fails with `PathEscape`; consequently, `load` preserves the
invariant that every cache key lies within the workspace root. -/
theorem resolve_within_root_cache_keys_within (self : MindmapCache) (fs : FS)
    (base_file relative : MPath) (visited : List MPath) :
    (∀ c tr, self.resolve_path fs base_file relative = (Except.ok c, tr) →
        c.startsWith self.workspace_root = true)
    ∧ (∀ c, relative.is_absolute = false →
        relative.components.any Component.isDriveOrRoot = false →
        fs.canonicalize (self.fullPath fs base_file relative) = some c →
        c.startsWith self.workspace_root = false →
        (self.resolve_path fs base_file relative).1 =
          Except.error (LoadError.pathEscape relative))
    ∧ (self.keysWithinRoot = true →
        (self.load fs base_file relative visited).cacheAfter.keysWithinRoot = true) := by
  refine ⟨?_, ?_, ?_⟩
  · intro c tr h
    exact resolve_ok_within_root self fs base_file relative c tr h
  · intro c h1 h2 hc hs
    simp [MindmapCache.resolve_path, h1, h2, hc, hs]
  · intro hall
    rcases load_cacheAfter_cases self fs base_file relative visited with h | ⟨c, mm, tr, hres, h⟩
    · rw [h]; exact hall
    · rw [h]
      have hc := resolve_ok_within_root self fs base_file relative c tr hres
      simp only [MindmapCache.keysWithinRoot, List.all_append, List.all_cons, List.all_nil,
        Bool.and_eq_true, Bool.and_true] at hall ⊢
      exact ⟨hall, hc⟩

/-- Witness for C1: `B.md` from `/ws/A.md` resolves within `/ws`; a
traversal reference canonicalizing to `/etc/passwd` fails with `PathEscape`;
and the load of `B.md` keeps all cache keys within the root. -/
theorem resolve_within_root_cache_keys_within_witness :
    fileB.startsWith theCache.workspace_root = true
    ∧ (theCache.resolve_path escapeFS fileA refEscape).1 =
        Except.error (LoadError.pathEscape refEscape)
    ∧ (theCache.load theFS fileA refB []).cacheAfter.keysWithinRoot = true :=
  ⟨(resolve_within_root_cache_keys_within theCache theFS fileA refB []).1 fileB
      [FsEvent.canonCall wsRoot, FsEvent.canonCall fileB] (by rfl),
   (resolve_within_root_cache_keys_within theCache escapeFS fileA refEscape []).2.1 etcPasswd
      (by decide) (by decide) (by rfl) (by decide),
   (resolve_within_root_cache_keys_within theCache theFS fileA refB []).2.2 (by decide)⟩

/-- C8: for a non-absolute reference, `resolve_path` anchors the lookup at
the base file's parent directory (the workspace root when there is no
parent): the directory it canonicalizes is exactly that anchor; and when the
anchor cannot be canonicalized, resolution proceeds with the literal joined
path instead of failing. -/
theorem resolve_anchors_at_parent (self : MindmapCache) (fs : FS)
    (base_file relative : MPath)
    (hna : relative.is_absolute = false)
    (hnc : relative.components.any Component.isDriveOrRoot = false) :
    (∀ d, base_file.parent = some d → self.baseDir base_file = d)
    ∧ (base_file.parent = none → self.baseDir base_file = self.workspace_root)
    ∧ (self.resolve_path fs base_file relative).2 =
        [FsEvent.canonCall (self.baseDir base_file),
         FsEvent.canonCall (self.fullPath fs base_file relative)]
    ∧ (fs.canonicalize (self.baseDir base_file) = none →
        self.fullPath fs base_file relative = (self.baseDir base_file).join relative
        ∧ ∀ c, fs.canonicalize ((self.baseDir base_file).join relative) = some c →
            c.startsWith self.workspace_root = true →
            (self.resolve_path fs base_file relative).1 = Except.ok c) := by
  refine ⟨?_, ?_, ?_, ?_⟩
  · intro d hd
    simp [MindmapCache.baseDir, hd]
  · intro hd
    simp [MindmapCache.baseDir, hd]
  · unfold MindmapCache.resolve_path
    cases hc : fs.canonicalize (self.fullPath fs base_file relative) with
    | none => simp [hna, hnc, hc]
    | some cc =>
      by_cases hs : cc.startsWith self.workspace_root
      · simp [hna, hnc, hc, hs]
      · simp [hna, hnc, hc, hs]
  · intro hcb
    have hfull : self.fullPath fs base_file relative = (self.baseDir base_file).join relative := by
      simp [MindmapCache.fullPath, hcb]
    refine ⟨hfull, ?_⟩
    intro c hc hs
    unfold MindmapCache.resolve_path
    rw [hfull] at *
    simp [hna, hnc, hfull, hc, hs]

/-- Witness for C8: from `/ws/A.md` the anchor is `/ws`; an empty base file
falls back to the workspace root; the trace canonicalizes exactly the anchor
and the joined path; and on a filesystem where `/ws` does not canonicalize,
`B.md` still resolves via the literal joined path. -/
theorem resolve_anchors_at_parent_witness :
    theCache.baseDir fileA = wsRoot
    ∧ theCache.baseDir baseEmpty = theCache.workspace_root
    ∧ (theCache.resolve_path theFS fileA refB).2 =
        [FsEvent.canonCall (theCache.baseDir fileA),
         FsEvent.canonCall (theCache.fullPath theFS fileA refB)]
    ∧ (theCache.resolve_path brokenDirFS fileA refB).1 = Except.ok fileB :=
  ⟨(resolve_anchors_at_parent theCache theFS fileA refB (by decide) (by decide)).1 wsRoot
      (by decide),
   (resolve_anchors_at_parent theCache theFS baseEmpty refB (by decide) (by decide)).2.1
      (by decide),
   (resolve_anchors_at_parent theCache theFS fileA refB (by decide) (by decide)).2.2.1,
   (((resolve_anchors_at_parent theCache brokenDirFS fileA refB (by decide) (by decide)).2.2.2
      (by decide)).2 fileB (by decide) (by decide))⟩

/-- C9: the cache's `max_depth` field is never consulted by the cache's own
operations: two caches identical except for `max_depth` give identical
`resolve_path` results and identical `load` results, traces, and resulting
cache contents on every input. -/
theorem cache_ignores_max_depth (self : MindmapCache) (d : Nat) (fs : FS)
    (base_file relative : MPath) (visited : List MPath) :
    ({ self with max_depth := d } : MindmapCache).resolve_path fs base_file relative =
        self.resolve_path fs base_file relative
    ∧ (({ self with max_depth := d } : MindmapCache).load fs base_file relative visited).result
        = (self.load fs base_file relative visited).result
    ∧ (({ self with max_depth := d } : MindmapCache).load fs base_file relative
        visited).cacheAfter.cache
        = (self.load fs base_file relative visited).cacheAfter.cache
    ∧ (({ self with max_depth := d } : MindmapCache).load fs base_file relative visited).trace
        = (self.load fs base_file relative visited).trace := by
  have hres : ({ self with max_depth := d } : MindmapCache).resolve_path fs base_file relative =
      self.resolve_path fs base_file relative := by
    simp [MindmapCache.resolve_path, MindmapCache.baseDir, MindmapCache.fullPath]
  refine ⟨hres, ?_⟩
  cases hr : self.resolve_path fs base_file relative with
  | mk r tr =>
    have hres' : ({ self with max_depth := d } : MindmapCache).resolve_path fs base_file relative
        = (r, tr) := hres.trans hr
    cases r with
    | error e => simp [MindmapCache.load, hr, hres']
    | ok c =>
      by_cases hv : c ∈ visited
      · simp [MindmapCache.load, hr, hres', hv]
      · cases hf : findEntry self.cache c with
        | some mm => simp [MindmapCache.load, hr, hres', hv, hf]
        | none =>
          cases hsz : fs.fileSize c with
          | none => simp [MindmapCache.load, hr, hres', hv, hf, hsz]
          | some n =>
            by_cases hb : n > self.max_file_size
            · simp [MindmapCache.load, hr, hres', hv, hf, hsz, hb]
            · cases hp : fs.parseFile c with
              | none => simp [MindmapCache.load, hr, hres', hv, hf, hsz, hb, hp]
              | some mm => simp [MindmapCache.load, hr, hres', hv, hf, hsz, hb, hp]

/-- Looking up a freshly appended key finds the appended record. -/
theorem findEntry_append_self (l : List (MPath × Mindmap)) (c : MPath) (mm : Mindmap)
    (h : findEntry l c = none) : findEntry (l ++ [(c, mm)]) c = some mm := by
  induction l with
  | nil => simp [findEntry]
  | cons e rest ih =>
    obtain ⟨q, m'⟩ := e
    by_cases hq : q = c
    · simp [findEntry, hq] at h
    · simp only [List.cons_append, findEntry, hq, if_false] at h ⊢
      exact ih h

/-- After a successful `load` resolving to canonical path `c`, the returned
record is stored under `c`, and the workspace root is unchanged. -/
theorem load_ok_found (self : MindmapCache) (fs : FS) (base_file relative c : MPath)
    (visited : List MPath) (tr : List FsEvent) (mm : Mindmap)
    (hres : self.resolve_path fs base_file relative = (Except.ok c, tr))
    (hok : (self.load fs base_file relative visited).result = Except.ok mm) :
    findEntry ((self.load fs base_file relative visited).cacheAfter).cache c = some mm := by
  by_cases hv : c ∈ visited
  · exfalso
    simp [MindmapCache.load, hres, hv] at hok
  · cases hf : findEntry self.cache c with
    | some mm0 =>
      have hl : self.load fs base_file relative visited = ⟨self, Except.ok mm0, tr⟩ := by
        simp [MindmapCache.load, hres, hv, hf]
      rw [hl] at hok ⊢
      simp only [Except.ok.injEq] at hok
      rw [← hok]
      exact hf
    | none =>
      cases hsz : fs.fileSize c with
      | none =>
        exfalso
        simp [MindmapCache.load, hres, hv, hf, hsz] at hok
      | some n =>
        by_cases hb : n > self.max_file_size
        · exfalso
          simp [MindmapCache.load, hres, hv, hf, hsz, hb] at hok
        · cases hp : fs.parseFile c with
          | none =>
            exfalso
            simp [MindmapCache.load, hres, hv, hf, hsz, hb, hp] at hok
          | some mm0 =>
            have hl : self.load fs base_file relative visited =
                ⟨{ self with cache := self.cache ++ [(c, mm0)] }, Except.ok mm0,
                 tr ++ [FsEvent.statCall c, FsEvent.parseCall c]⟩ := by
              simp [MindmapCache.load, hres, hv, hf, hsz, hb, hp]
            rw [hl] at hok ⊢
            simp only [Except.ok.injEq] at hok
            rw [← hok]
            exact findEntry_append_self self.cache c mm0 hf

/-- A cache hit: `load` returns the stored record, the cache state untouched
and only the resolution trace. -/
theorem load_cache_hit (self : MindmapCache) (fs : FS) (base_file relative c : MPath)
    (visited : List MPath) (tr : List FsEvent) (mm : Mindmap)
    (hres : self.resolve_path fs base_file relative = (Except.ok c, tr))
    (hv : c ∉ visited)
    (hhit : findEntry self.cache c = some mm) :
    self.load fs base_file relative visited = ⟨self, Except.ok mm, tr⟩ := by
  simp [MindmapCache.load, hres, hv, hhit]

/-- C3: at most one read-and-parse per canonical path: after a successful
`load` resolving to canonical path `c`, a second `load` resolving to the
same `c` (with `c` not in the visited set) returns the same stored record
with the cache unchanged, performs no stat and no parse call, and
`stats().num_cached` does not increase. -/
theorem load_at_most_one_parse (self : MindmapCache) (fs : FS)
    (b1 r1 b2 r2 c : MPath) (v1 v2 : List MPath) (mm : Mindmap)
    (tr1 tr2 : List FsEvent)
    (hres1 : self.resolve_path fs b1 r1 = (Except.ok c, tr1))
    (hok1 : (self.load fs b1 r1 v1).result = Except.ok mm)
    (hres2 : ((self.load fs b1 r1 v1).cacheAfter).resolve_path fs b2 r2 = (Except.ok c, tr2))
    (hv2 : c ∉ v2) :
    ((self.load fs b1 r1 v1).cacheAfter).load fs b2 r2 v2 =
      ⟨(self.load fs b1 r1 v1).cacheAfter, Except.ok mm, tr2⟩
    ∧ (∀ p, FsEvent.statCall p ∉ (((self.load fs b1 r1 v1).cacheAfter).load fs b2 r2 v2).trace
        ∧ FsEvent.parseCall p ∉ (((self.load fs b1 r1 v1).cacheAfter).load fs b2 r2 v2).trace)
    ∧ (((self.load fs b1 r1 v1).cacheAfter).load fs b2 r2 v2).cacheAfter.stats.num_cached
        = ((self.load fs b1 r1 v1).cacheAfter).stats.num_cached := by
  have hfound := load_ok_found self fs b1 r1 c v1 tr1 mm hres1 hok1
  have hl2 : ((self.load fs b1 r1 v1).cacheAfter).load fs b2 r2 v2 =
      ⟨(self.load fs b1 r1 v1).cacheAfter, Except.ok mm, tr2⟩ :=
    load_cache_hit _ fs b2 r2 c v2 tr2 mm hres2 hv2 hfound
  refine ⟨hl2, ?_, ?_⟩
  · intro p
    rw [hl2]
    constructor
    · have h := resolve_trace_no_stat ((self.load fs b1 r1 v1).cacheAfter) fs b2 r2 p
      rw [hres2] at h
      exact h
    · have h := resolve_trace_no_parse ((self.load fs b1 r1 v1).cacheAfter) fs b2 r2 p
      rw [hres2] at h
      exact h
  · rw [hl2]

/-- Witness for C3: loading `B.md` twice from `/ws/A.md` yields the same
record `mmB` both times, leaves the one-entry cache as is, and keeps
`num_cached` constant. -/
theorem load_at_most_one_parse_witness :
    ((theCache.load theFS fileA refB []).cacheAfter).load theFS fileA refB [] =
      ⟨(theCache.load theFS fileA refB []).cacheAfter, Except.ok mmB,
       [FsEvent.canonCall wsRoot, FsEvent.canonCall fileB]⟩
    ∧ (((theCache.load theFS fileA refB []).cacheAfter).load theFS fileA
        refB []).cacheAfter.stats.num_cached
        = ((theCache.load theFS fileA refB []).cacheAfter).stats.num_cached :=
  ⟨(load_at_most_one_parse theCache theFS fileA refB fileA refB fileB [] [] mmB
      [FsEvent.canonCall wsRoot, FsEvent.canonCall fileB]
      [FsEvent.canonCall wsRoot, FsEvent.canonCall fileB]
      (by rfl) (by rfl) (by rfl) (by decide)).1,
   (load_at_most_one_parse theCache theFS fileA refB fileA refB fileB [] [] mmB
      [FsEvent.canonCall wsRoot, FsEvent.canonCall fileB]
      [FsEvent.canonCall wsRoot, FsEvent.canonCall fileB]
      (by rfl) (by rfl) (by rfl) (by decide)).2.2⟩

end MindmapCli
